import Mathlib

/-!
Verification of the lib-result Result library.

The development shallowly embeds the TypeScript sources:
  * `src/utils.ts` (the revision exercised by `tests/utils.test.ts`, which
    exports `toError`, `isKeyValue`, `createCustomError`),
  * `src/mixens.ts` (constructors `Ok`, `Err`, `ErrFromText`, `ErrFromObject`
    and the method fragments `withIsOk`, `withIsError`, `withUnwrap`,
    `withExpect`, `withMap`, `withPipe`, `withMatch`, `withOrElse`,
    `withUnwrapOr`),
  * `src/main.ts` (`wrap`, `wrapAsync`).

JavaScript runtime values are modelled by the inductive `JSValue`; objects are
association lists of string-keyed fields in insertion order.  Code that can
throw is modelled in `JsRes`, an explicit exception outcome type: `.ret v` is
a normal return and `.thrown e` is a thrown (or, for promises, rejected)
value.  Callbacks supplied by the user are functions into `JsRes JSValue`, so
a callback that throws is representable.  Asynchronous code (`wrapAsync`) is
modelled by the settled outcome of its promise: resolution is `.ret`,
rejection is `.thrown`; this is faithful because the wrapper contains a single
await and adds no other suspension points.
-/

namespace LibResult

/-- A JavaScript runtime value.  `vobj` is a plain object, `verr` an object
that is `instanceof Error`; both carry their own enumerable-ish fields as an
association list in property insertion order.  Numbers are modelled as
integers (no claim depends on floating point). -/
inductive JSValue : Type where
  | vundefined : JSValue
  | vnull : JSValue
  | vbool (b : Bool) : JSValue
  | vnum (n : Int) : JSValue
  | vstr (s : String) : JSValue
  | varr (elems : List JSValue) : JSValue
  | vobj (fields : List (String × JSValue)) : JSValue
  | verr (fields : List (String × JSValue)) : JSValue

/-- Property lookup on an association-list object: the first binding wins
(field lists built by the embedding never repeat a key). -/
def getField : List (String × JSValue) → String → Option JSValue
  | [], _ => none
  | (k', v) :: rest, k => if k' = k then some v else getField rest k

/-- Property assignment `target[k] = v`: an existing binding keeps its
position and is overwritten, a new key is appended (JS insertion order). -/
def setField : List (String × JSValue) → String → JSValue → List (String × JSValue)
  | [], k, v => [(k, v)]
  | (k', v') :: rest, k, v =>
      if k' = k then (k', v) :: rest else (k', v') :: setField rest k v

/-- `Object.assign(target, source)`: assigns each field of `source` onto
`target`, in order. -/
def objAssign (target source : List (String × JSValue)) : List (String × JSValue) :=
  source.foldl (fun t kv => setField t kv.1 kv.2) target

/-- JS truthiness: `undefined`, `null`, `false`, `0` and `""` are falsy. -/
def isTruthy : JSValue → Bool
  | .vundefined => false
  | .vnull => false
  | .vbool b => b
  | .vnum n => n != 0
  | .vstr s => s ≠ ""
  | .varr _ => true
  | .vobj _ => true
  | .verr _ => true

/-- ECMAScript ToString as used by the `new Error(m)` constructor argument.
Only the primitive cases are ever observable in this development: in
`createCustomError` the constructor message is overwritten by `Object.assign`
whenever `props` has a `message` key, and the remaining call sites pass
strings; the object/array/error cases are therefore fixed, unobservable
placeholders. -/
def jsToString : JSValue → String
  | .vundefined => "undefined"
  | .vnull => "null"
  | .vbool true => "true"
  | .vbool false => "false"
  | .vnum n => toString n
  | .vstr s => s
  | .varr _ => ""
  | .vobj _ => "[object Object]"
  | .verr _ => "Error"

/-- `new Error(message)` with a string argument: an `Error` instance whose
only modelled own field is `message`. -/
def newError (message : String) : JSValue :=
  .verr [("message", .vstr message)]

/-- `e instanceof Error`. -/
def isErrorInstance : JSValue → Bool
  | .verr _ => true
  | _ => false

/-- `typeof e === "string"`. -/
def isString : JSValue → Bool
  | .vstr _ => true
  | _ => false

/-- From src/utils.ts: `isKeyValue(value)` is
`typeof value === "object" && value !== null && !Array.isArray(value)`.
`Error` instances are non-null, non-array objects, so they satisfy it. -/
def isKeyValue : JSValue → Bool
  | .vobj _ => true
  | .verr _ => true
  | .vnull => false
  | _ => false

/-- Reads `props?.message` for `createCustomError`: optional chaining yields
`undefined` when `props` is nullish, and property access on a non-object
primitive also yields `undefined` for the modelled values. -/
def optMessage : JSValue → JSValue
  | .vobj fields => (getField fields "message").getD .vundefined
  | .verr fields => (getField fields "message").getD .vundefined
  | _ => .vundefined

/-- From src/utils.ts:
`createCustomError(props?)` builds `new Error(props?.message || "Unknown Error")`
and, when `isKeyValue(props)`, returns `Object.assign(error, props)`.
An absent `props` argument is passed as `.vundefined`. -/
def createCustomError (props : JSValue) : JSValue :=
  let msgVal := optMessage props
  let m := if isTruthy msgVal then msgVal else .vstr "Unknown Error"
  match props with
  | .vobj fields => .verr (objAssign [("message", .vstr (jsToString m))] fields)
  | .verr fields => .verr (objAssign [("message", .vstr (jsToString m))] fields)
  | _ => .verr [("message", .vstr (jsToString m))]

/-- From src/utils.ts (the revision covered by tests/utils.test.ts):
`toError(e)` returns `e` if `e instanceof Error`; `new Error(e)` if `e` is a
string; `createCustomError(e)` if `isKeyValue(e)`; otherwise
`new Error("Unknown error")` (note: no `cause` is attached in the fallback). -/
def toError (e : JSValue) : JSValue :=
  if isErrorInstance e then e
  else if isString e then newError (jsToString e)
  else if isKeyValue e then createCustomError e
  else newError "Unknown error"

/-- The outcome of running a piece of JS code that produces an `α`:
either a normal return or a thrown value. -/
inductive JsRes (α : Type) : Type where
  | ret (v : α) : JsRes α
  | thrown (e : JSValue) : JsRes α

/-- Sequencing of throwing computations: a thrown value propagates. -/
def jsBind {α β : Type} : JsRes α → (α → JsRes β) → JsRes β
  | .ret v, f => f v
  | .thrown e, _ => .thrown e

/-- A Result instance from src/mixens.ts: the data part `{ ok, error }` of
the frozen object produced by `compose` (the attached methods are the
top-level functions below).  A field holding JS `undefined` is `.vundefined`. -/
structure ResultObj : Type where
  ok : JSValue
  error : JSValue

/-- `v === undefined`. -/
def isUndefined : JSValue → Bool
  | .vundefined => true
  | _ => false

/-- From src/mixens.ts, `withIsOk`: `this.error === undefined`. -/
def ResultObj.isOk (r : ResultObj) : Bool :=
  isUndefined r.error

/-- From src/mixens.ts, `withIsError`: `this.error !== undefined`. -/
def ResultObj.isError (r : ResultObj) : Bool :=
  !(isUndefined r.error)

/-- From src/mixens.ts: `Ok(ok)` builds `{ ok, error: undefined }`. -/
def Ok (ok : JSValue) : ResultObj :=
  ⟨ok, .vundefined⟩

/-- The message of the `TypeError` thrown by `Err` on a non-`Error` argument. -/
def errTypeErrorMessage : String :=
  "Err expects an Error instance, use ErrFromObject instead."

/-- A `TypeError` instance: modelled with its `name` and `message` fields. -/
def newTypeError (message : String) : JSValue :=
  .verr [("name", .vstr "TypeError"), ("message", .vstr message)]

/-- From src/mixens.ts: `Err(error)` throws a `TypeError` if
`!(error instanceof Error)` and otherwise builds `{ ok: undefined, error }`. -/
def Err (error : JSValue) : JsRes ResultObj :=
  if !(isErrorInstance error) then .thrown (newTypeError errTypeErrorMessage)
  else .ret ⟨.vundefined, error⟩

/-- From src/mixens.ts: `ErrFromText(message)` builds
`{ ok: undefined, error: new Error(message) }`; it never fails. -/
def ErrFromText (message : String) : ResultObj :=
  ⟨.vundefined, newError message⟩

/-- From src/mixens.ts: `ErrFromObject(props)` builds
`{ ok: undefined, error: createCustomError(props) }`; it never fails. -/
def ErrFromObject (props : JSValue) : ResultObj :=
  ⟨.vundefined, createCustomError props⟩

/-- From src/mixens.ts, `withUnwrap`: return `this.ok` if `isOk()`, else
throw `this.error`. -/
def ResultObj.unwrap (r : ResultObj) : JsRes JSValue :=
  if r.isOk then .ret r.ok else .thrown r.error

/-- From src/mixens.ts, `withExpect`: return `this.ok` if `isOk()`, else
throw `createCustomError({ message, cause: this.error })`. -/
def ResultObj.expect (r : ResultObj) (message : String) : JsRes JSValue :=
  if r.isOk then .ret r.ok
  else .thrown (createCustomError (.vobj [("message", .vstr message), ("cause", r.error)]))

/-- From src/mixens.ts, `withMap`:
`try { if (this.isOk()) return Ok(fn(this.ok)); } catch (e) { return Err(toError(e)); }
 return Err(this.error);` -/
def ResultObj.map (r : ResultObj) (fn : JSValue → JsRes JSValue) : JsRes ResultObj :=
  if r.isOk then
    match fn r.ok with
    | .ret v => .ret (Ok v)
    | .thrown e => Err (toError e)
  else Err r.error

/-- From src/mixens.ts, `withPipe`:
`try { if (this.isOk()) return fn(this.ok); } catch (e) { return Err(toError(e)); }
 return Err(this.error);` -/
def ResultObj.pipe (r : ResultObj) (fn : JSValue → JsRes ResultObj) : JsRes ResultObj :=
  if r.isOk then
    match fn r.ok with
    | .ret res => .ret res
    | .thrown e => Err (toError e)
  else Err r.error

/-- From src/mixens.ts, `withMatch`:
`try { if (this.isOk()) return okFn(this.ok); return errFn(this.error); }
 catch (e) { return errFn(toError(e)); }`
A throw from the first call (either branch) is caught once and redirected to
`errFn (toError e)`, whose own outcome then escapes as is. -/
def ResultObj.«match» (r : ResultObj) (okFn errFn : JSValue → JsRes JSValue) : JsRes JSValue :=
  match (if r.isOk then okFn r.ok else errFn r.error) with
  | .ret v => .ret v
  | .thrown e => errFn (toError e)

/-- From src/mixens.ts, `withOrElse`:
`try { if (this.isOk()) return this.ok; return errFn(this.error); }
 catch (e) { throw toError(e); }` -/
def ResultObj.orElse (r : ResultObj) (errFn : JSValue → JsRes JSValue) : JsRes JSValue :=
  match (if r.isOk then .ret r.ok else errFn r.error) with
  | .ret v => .ret v
  | .thrown e => .thrown (toError e)

/-- From src/mixens.ts, `withUnwrapOr`: `this.isOk() ? this.ok : fallback`. -/
def ResultObj.unwrapOr (r : ResultObj) (fallback : JSValue) : JSValue :=
  if r.isOk then r.ok else fallback

/-- From src/main.ts: `wrap(callback)` is
`try { return Ok(callback()); } catch (error) { return Err(toError(error)); }`. -/
def wrap (callback : Unit → JsRes JSValue) : JsRes ResultObj :=
  match callback () with
  | .ret v => .ret (Ok v)
  | .thrown e => Err (toError e)

/-- From src/main.ts: `wrapAsync(callback)` is
`try { return Ok(await callback()); } catch (error) { return Err(toError(error)); }`;
the value is the settled outcome of the returned promise (`.ret` = resolved,
`.thrown` = rejected). -/
def wrapAsync (callback : Unit → JsRes JSValue) : JsRes ResultObj :=
  match callback () with
  | .ret v => .ret (Ok v)
  | .thrown e => Err (toError e)

/-- A three-stage pipe chain `Ok(x).pipe(f).pipe(g).pipe(h)` with any throw
from a stage propagating (the stages themselves never throw on well-formed
results, but the sequencing is modelled faithfully). -/
def pipe3 (x : JSValue) (f g h : JSValue → JsRes ResultObj) : JsRes ResultObj :=
  jsBind (jsBind ((Ok x).pipe f) (fun r => r.pipe g)) (fun r => r.pipe h)

/-- Reads field `k` of an `Error` instance, `none` on anything else. -/
def errGet (v : JSValue) (k : String) : Option JSValue :=
  match v with
  | .verr fields => getField fields k
  | _ => none

/-- The Error-like structural capability from the spec: exposes a `message`
field (`Error` instances always do, via their own field or the prototype). -/
def hasMessageField : JSValue → Bool
  | .vobj fields => (getField fields "message").isSome
  | .verr _ => true
  | _ => false

/-! Shared lemmas about the embedding. -/

theorem isErrorInstance_toError (e : JSValue) : isErrorInstance (toError e) = true := by
  cases e <;>
    simp [toError, isErrorInstance, isString, isKeyValue, newError, createCustomError]

theorem isUndefined_of_isErrorInstance {e : JSValue} (h : isErrorInstance e = true) :
    isUndefined e = false := by
  cases e <;> simp_all [isErrorInstance, isUndefined]

theorem Err_of_isErrorInstance {e : JSValue} (h : isErrorInstance e = true) :
    Err e = .ret ⟨.vundefined, e⟩ := by
  simp [Err, h]

theorem Err_ret {e : JSValue} {r : ResultObj} (h : Err e = .ret r) :
    isErrorInstance e = true ∧ r = ⟨.vundefined, e⟩ := by
  cases hi : isErrorInstance e <;> simp [Err, hi] at h
  exact ⟨rfl, h.symm⟩

theorem isOk_Ok (x : JSValue) : (Ok x).isOk = true := rfl

theorem isOk_errResult {e : JSValue} (h : isErrorInstance e = true) :
    (⟨.vundefined, e⟩ : ResultObj).isOk = false := by
  simp [ResultObj.isOk, isUndefined_of_isErrorInstance h]

theorem map_ok_ret {x v : JSValue} {fn : JSValue → JsRes JSValue} (h : fn x = .ret v) :
    (Ok x).map fn = .ret (Ok v) := by
  simp [ResultObj.map, Ok, ResultObj.isOk, isUndefined, h]

theorem map_ok_thrown {x t : JSValue} {fn : JSValue → JsRes JSValue} (h : fn x = .thrown t) :
    (Ok x).map fn = .ret ⟨.vundefined, toError t⟩ := by
  simp [ResultObj.map, Ok, ResultObj.isOk, isUndefined, h,
    Err_of_isErrorInstance (isErrorInstance_toError t)]

theorem map_err {e : JSValue} {fn : JSValue → JsRes JSValue} (h : isErrorInstance e = true) :
    (⟨.vundefined, e⟩ : ResultObj).map fn = .ret ⟨.vundefined, e⟩ := by
  simp [ResultObj.map, isOk_errResult h, Err_of_isErrorInstance h]

theorem pipe_ok_ret {x : JSValue} {r : ResultObj} {fn : JSValue → JsRes ResultObj}
    (h : fn x = .ret r) : (Ok x).pipe fn = .ret r := by
  simp [ResultObj.pipe, Ok, ResultObj.isOk, isUndefined, h]

theorem pipe_err {e : JSValue} {fn : JSValue → JsRes ResultObj} (h : isErrorInstance e = true) :
    (⟨.vundefined, e⟩ : ResultObj).pipe fn = .ret ⟨.vundefined, e⟩ := by
  simp [ResultObj.pipe, isOk_errResult h, Err_of_isErrorInstance h]

/-! Claim theorems. -/

/-- C2: `Ok(x).map(f)` is `Ok(f(x))` when `f` returns; when `f` throws, the
result is an `Err` holding the normalized thrown value; and on a failure
result built by `Err(e)`, `map` returns an `Err` with the same stored error
and the result does not depend on the callback (it is never invoked). -/
theorem map_spec :
    (∀ (x : JSValue) (fn : JSValue → JsRes JSValue) (v : JSValue),
      fn x = .ret v → (Ok x).map fn = .ret (Ok v)) ∧
    (∀ (x : JSValue) (fn : JSValue → JsRes JSValue) (t : JSValue),
      fn x = .thrown t → (Ok x).map fn = .ret ⟨.vundefined, toError t⟩) ∧
    (∀ (e : JSValue) (r : ResultObj) (fn : JSValue → JsRes JSValue),
      Err e = .ret r →
        r.map fn = .ret r ∧ ∀ g : JSValue → JsRes JSValue, r.map fn = r.map g) := by
  refine ⟨fun x fn v h => map_ok_ret h, fun x fn t h => map_ok_thrown h, ?_⟩
  intro e r fn h
  obtain ⟨he, rfl⟩ := Err_ret h
  exact ⟨map_err he, fun g => (map_err he).trans (map_err he).symm⟩

/-- Witness for C2 at concrete inputs. -/
theorem map_spec_witness :
    ((Ok (.vnum 2)).map (fun v => .ret v) = .ret (Ok (.vnum 2))) ∧
    ((Ok (.vnum 2)).map (fun _ => .thrown (.vstr "boom")) =
      .ret ⟨.vundefined, toError (.vstr "boom")⟩) ∧
    ((⟨.vundefined, newError "fail"⟩ : ResultObj).map (fun v => .ret v) =
      .ret ⟨.vundefined, newError "fail"⟩) := by
  refine ⟨map_spec.1 (.vnum 2) _ (.vnum 2) rfl,
          map_spec.2.1 (.vnum 2) _ (.vstr "boom") rfl, ?_⟩
  exact (map_spec.2.2 (newError "fail") ⟨.vundefined, newError "fail"⟩ _ rfl).1

/-- C3: `Ok(x).pipe(f)` is exactly `f(x)` when `f` returns a Result without
throwing; on a failure result built by `Err(e)`, `pipe` returns an `Err`
holding the same stored error, independent of the callback; and in a
three-stage chain whose middle stage returns an `Err`, the final result is
that `Err` and the third stage's callback is never consulted. -/
theorem pipe_spec :
    (∀ (x : JSValue) (fn : JSValue → JsRes ResultObj) (r : ResultObj),
      fn x = .ret r → (Ok x).pipe fn = .ret r) ∧
    (∀ (e : JSValue) (r : ResultObj) (fn : JSValue → JsRes ResultObj),
      Err e = .ret r →
        r.pipe fn = .ret r ∧ ∀ g : JSValue → JsRes ResultObj, r.pipe fn = r.pipe g) ∧
    (∀ (x : JSValue) (f g h : JSValue → JsRes ResultObj) (e : JSValue)
        (r1 rE : ResultObj),
      f x = .ret r1 → Err e = .ret rE → r1.pipe g = .ret rE →
        pipe3 x f g h = .ret rE ∧
        ∀ h2 : JSValue → JsRes ResultObj, pipe3 x f g h = pipe3 x f g h2) := by
  refine ⟨fun x fn r h => pipe_ok_ret h, ?_, ?_⟩
  · intro e r fn h
    obtain ⟨he, rfl⟩ := Err_ret h
    exact ⟨pipe_err he, fun g => (pipe_err he).trans (pipe_err he).symm⟩
  · intro x f g h e r1 rE hf hE hmid
    obtain ⟨he, rfl⟩ := Err_ret hE
    have chain : ∀ h3 : JSValue → JsRes ResultObj,
        pipe3 x f g h3 = .ret ⟨.vundefined, e⟩ := by
      intro h3
      unfold pipe3
      rw [pipe_ok_ret hf]
      simp [jsBind, hmid, pipe_err he]
    exact ⟨chain h, fun h2 => (chain h).trans (chain h2).symm⟩

/-- Witness for C3 at concrete inputs: the middle stage fails and the chain
stops with that error. -/
theorem pipe_spec_witness :
    ((Ok (.vnum 1)).pipe (fun v => .ret (Ok v)) = .ret (Ok (.vnum 1))) ∧
    ((⟨.vundefined, newError "fail"⟩ : ResultObj).pipe (fun v => .ret (Ok v)) =
      .ret ⟨.vundefined, newError "fail"⟩) ∧
    (pipe3 (.vnum 1) (fun v => .ret (Ok v))
        (fun _ => .ret ⟨.vundefined, newError "mid"⟩) (fun v => .ret (Ok v)) =
      .ret ⟨.vundefined, newError "mid"⟩) := by
  refine ⟨pipe_spec.1 (.vnum 1) _ (Ok (.vnum 1)) rfl,
          (pipe_spec.2.1 (newError "fail") ⟨.vundefined, newError "fail"⟩ _ rfl).1, ?_⟩
  exact (pipe_spec.2.2 (.vnum 1) (fun v => .ret (Ok v))
    (fun _ => .ret ⟨.vundefined, newError "mid"⟩) (fun v => .ret (Ok v))
    (newError "mid") (Ok (.vnum 1)) ⟨.vundefined, newError "mid"⟩ rfl rfl rfl).1

/-- C4 counterexample: the claim says an exception thrown by the callback on
the Err path propagates unchanged, but `orElse` rethrows `toError(e)`: a
thrown string `"boom"` reaches the caller as a new `Error` object with
message `"boom"`, not as the original string. -/
theorem orElse_rethrow_cex :
    ((⟨.vundefined, newError "inner"⟩ : ResultObj).orElse (fun _ => .thrown (.vstr "boom")) =
      .thrown (newError "boom")) ∧
    ((⟨.vundefined, newError "inner"⟩ : ResultObj).orElse (fun _ => .thrown (.vstr "boom")) ≠
      .thrown (.vstr "boom")) := by
  refine ⟨rfl, fun h => ?_⟩
  have h2 : (JsRes.thrown (newError "boom") : JsRes JSValue) = .thrown (.vstr "boom") := h
  simp [newError] at h2

/-- C4 as amended: `Ok(x).orElse(f)` returns `x` with `f` never invoked;
`Err(e).orElse(f)` returns `f(e)` when `f` returns; and when `f` throws `t`
on the Err path, `orElse` rethrows `toError(t)` — the throw is not swallowed
into a Result, and the thrown value reaches the caller unchanged exactly when
it is already an `Error` instance. -/
theorem orElse_spec :
    (∀ (x : JSValue) (fn : JSValue → JsRes JSValue),
      (Ok x).orElse fn = .ret x ∧
      ∀ g : JSValue → JsRes JSValue, (Ok x).orElse fn = (Ok x).orElse g) ∧
    (∀ (e : JSValue) (r : ResultObj) (fn : JSValue → JsRes JSValue) (v : JSValue),
      Err e = .ret r → fn e = .ret v → r.orElse fn = .ret v) ∧
    (∀ (e : JSValue) (r : ResultObj) (fn : JSValue → JsRes JSValue) (t : JSValue),
      Err e = .ret r → fn e = .thrown t →
        r.orElse fn = .thrown (toError t) ∧
        (isErrorInstance t = true → toError t = t)) := by
  refine ⟨?_, ?_, ?_⟩
  · intro x fn
    constructor
    · simp [ResultObj.orElse, Ok, ResultObj.isOk, isUndefined]
    · intro g
      simp [ResultObj.orElse, Ok, ResultObj.isOk, isUndefined]
  · intro e r fn v hE h
    obtain ⟨he, rfl⟩ := Err_ret hE
    simp [ResultObj.orElse, isOk_errResult he, h]
  · intro e r fn t hE h
    obtain ⟨he, rfl⟩ := Err_ret hE
    constructor
    · simp [ResultObj.orElse, isOk_errResult he, h]
    · intro ht
      simp [toError, ht]

/-- Witness for C4 at concrete inputs. -/
theorem orElse_spec_witness :
    ((Ok (.vnum 5)).orElse (fun _ => .ret (.vnum 0)) = .ret (.vnum 5)) ∧
    ((⟨.vundefined, newError "bad"⟩ : ResultObj).orElse (fun _ => .ret (.vnum 0)) =
      .ret (.vnum 0)) ∧
    ((⟨.vundefined, newError "bad"⟩ : ResultObj).orElse (fun _ => .thrown (newError "t")) =
      .thrown (toError (newError "t"))) := by
  refine ⟨(orElse_spec.1 (.vnum 5) _).1,
          orElse_spec.2.1 (newError "bad") ⟨.vundefined, newError "bad"⟩ _ (.vnum 0) rfl rfl, ?_⟩
  exact (orElse_spec.2.2 (newError "bad") ⟨.vundefined, newError "bad"⟩ _
    (newError "t") rfl rfl).1

/-- C6: `Ok(x).match(okFn, errFn)` is `okFn(x)` when `okFn` returns; on a
failure result built by `Err(e)` it is `errFn(e)` when `errFn` returns; and
when `okFn` throws, the thrown value is normalized and passed to `errFn`, the
overall outcome being exactly that of `errFn(toError(thrown))`. -/
theorem match_spec :
    (∀ (x : JSValue) (okFn errFn : JSValue → JsRes JSValue) (v : JSValue),
      okFn x = .ret v → (Ok x).«match» okFn errFn = .ret v) ∧
    (∀ (e : JSValue) (r : ResultObj) (okFn errFn : JSValue → JsRes JSValue) (v : JSValue),
      Err e = .ret r → errFn e = .ret v → r.«match» okFn errFn = .ret v) ∧
    (∀ (x : JSValue) (okFn errFn : JSValue → JsRes JSValue) (t : JSValue),
      okFn x = .thrown t → (Ok x).«match» okFn errFn = errFn (toError t)) := by
  refine ⟨?_, ?_, ?_⟩
  · intro x okFn errFn v h
    simp [ResultObj.«match», Ok, ResultObj.isOk, isUndefined, h]
  · intro e r okFn errFn v hE h
    obtain ⟨he, rfl⟩ := Err_ret hE
    simp [ResultObj.«match», isOk_errResult he, h]
  · intro x okFn errFn t h
    simp [ResultObj.«match», Ok, ResultObj.isOk, isUndefined, h]

/-- Witness for C6 at concrete inputs; the third conjunct exercises the
normalization of a thrown string into the error callback. -/
theorem match_spec_witness :
    ((Ok (.vnum 3)).«match» (fun v => .ret v) (fun _ => .ret .vnull) = .ret (.vnum 3)) ∧
    ((⟨.vundefined, newError "sad"⟩ : ResultObj).«match» (fun v => .ret v)
      (fun e => .ret e) = .ret (newError "sad")) ∧
    ((Ok (.vnum 3)).«match» (fun _ => .thrown (.vstr "oops"))
      (fun e => .ret e) = .ret (toError (.vstr "oops"))) := by
  refine ⟨match_spec.1 (.vnum 3) _ _ (.vnum 3) rfl,
          match_spec.2.1 (newError "sad") ⟨.vundefined, newError "sad"⟩ _ _
            (newError "sad") rfl rfl, ?_⟩
  exact match_spec.2.2 (.vnum 3) _ (fun e => .ret e) (.vstr "oops") rfl

/-- C10: on the failure variant, when `errFn` itself throws, `match` catches
the thrown value, normalizes it and invokes `errFn` a second time on the
normalized error; the overall outcome is exactly that second call's outcome
(so an exception escapes `match` only if the second call also throws). -/
theorem match_err_retry_spec :
    ∀ (e : JSValue) (r : ResultObj) (okFn errFn : JSValue → JsRes JSValue) (t : JSValue),
      Err e = .ret r → errFn e = .thrown t →
        r.«match» okFn errFn = errFn (toError t) := by
  intro e r okFn errFn t hE h
  obtain ⟨he, rfl⟩ := Err_ret hE
  simp [ResultObj.«match», isOk_errResult he, h]

/-- Witness for C10: the error callback throws on the stored error
(message "inner") and is re-invoked on the normalized rethrown string,
returning normally the second time. -/
theorem match_err_retry_witness :
    (⟨.vundefined, newError "inner"⟩ : ResultObj).«match» (fun v => .ret v)
      (fun v =>
        match errGet v "message" with
        | some (.vstr "inner") => .thrown (.vstr "retry")
        | _ => .ret v) =
    .ret (newError "retry") := by
  have h := match_err_retry_spec (newError "inner") ⟨.vundefined, newError "inner"⟩
    (fun v => .ret v)
    (fun v =>
      match errGet v "message" with
      | some (.vstr "inner") => .thrown (.vstr "retry")
      | _ => .ret v)
    (.vstr "retry") rfl rfl
  exact h.trans rfl

/-- Evaluates `createCustomError({ message, cause })` as called by `expect`:
the `Object.assign` overwrite makes the final `message` the given string for
every `message`, including the empty one. -/
theorem createCustomError_message_cause (msg : String) (e : JSValue) :
    createCustomError (.vobj [("message", .vstr msg), ("cause", e)]) =
      .verr [("message", .vstr msg), ("cause", e)] := by
  by_cases h : msg = "" <;>
    simp [createCustomError, optMessage, getField, objAssign, setField, isTruthy,
      jsToString, h]

/-- An `Error` object whose `cause` field is `e` is structurally distinct
from `e` (it contains `e` as a proper part). -/
theorem verr_message_cause_ne (msg : String) (e : JSValue) :
    (JSValue.verr [("message", .vstr msg), ("cause", e)] : JSValue) ≠ e := by
  intro h
  have hs : sizeOf (JSValue.verr [("message", .vstr msg), ("cause", e)] : JSValue) =
      sizeOf e := congrArg sizeOf h
  simp only [JSValue.verr.sizeOf_spec, List.cons.sizeOf_spec, List.nil.sizeOf_spec,
    Prod.mk.sizeOf_spec, JSValue.vstr.sizeOf_spec] at hs
  omega

/-- C8: `Ok(x).expect(msg)` returns `x`; on a failure result built by
`Err(e)`, `expect(msg)` throws a new error object — distinct from `e` —
whose `message` field is `msg` and whose `cause` field is the stored error
`e`. -/
theorem expect_spec :
    (∀ (x : JSValue) (msg : String), (Ok x).expect msg = .ret x) ∧
    (∀ (e : JSValue) (r : ResultObj) (msg : String),
      Err e = .ret r →
        r.expect msg = .thrown (.verr [("message", .vstr msg), ("cause", e)]) ∧
        errGet (.verr [("message", .vstr msg), ("cause", e)]) "message" =
          some (.vstr msg) ∧
        errGet (.verr [("message", .vstr msg), ("cause", e)]) "cause" = some e ∧
        (JSValue.verr [("message", .vstr msg), ("cause", e)] : JSValue) ≠ e) := by
  constructor
  · intro x msg
    simp [ResultObj.expect, Ok, ResultObj.isOk, isUndefined]
  · intro e r msg hE
    obtain ⟨he, rfl⟩ := Err_ret hE
    refine ⟨?_, by simp [errGet, getField], by simp [errGet, getField],
      verr_message_cause_ne msg e⟩
    simp [ResultObj.expect, isOk_errResult he, createCustomError_message_cause]

/-- Witness for C8 at concrete inputs. -/
theorem expect_spec_witness :
    ((Ok (.vnum 9)).expect "ouch" = .ret (.vnum 9)) ∧
    ((⟨.vundefined, newError "root"⟩ : ResultObj).expect "ouch" =
      .thrown (.verr [("message", .vstr "ouch"), ("cause", newError "root")])) ∧
    (JSValue.verr [("message", .vstr "ouch"), ("cause", newError "root")] ≠
      newError "root") := by
  refine ⟨expect_spec.1 (.vnum 9) "ouch", ?_, ?_⟩
  · exact (expect_spec.2 (newError "root") ⟨.vundefined, newError "root"⟩ "ouch" rfl).1
  · exact (expect_spec.2 (newError "root") ⟨.vundefined, newError "root"⟩ "ouch" rfl).2.2.2

/-- C5 counterexample: the claim ties the fail-fast check to the Error-like
capability (a `message` field), but `Err` checks `instanceof Error`: a plain
object that does have a `message` field is still rejected with the
construction-time `TypeError`. -/
theorem err_messageField_cex :
    hasMessageField (.vobj [("message", .vstr "hi")]) = true ∧
    Err (.vobj [("message", .vstr "hi")]) =
      .thrown (newTypeError errTypeErrorMessage) :=
  ⟨rfl, rfl⟩

/-- C5 as amended: `Err(error)` fails fast — a `TypeError` thrown at
construction time, never returned as a Result — exactly when `error` is not
an instance of `Error` (a stricter test than merely having a `message`
field); when `error` is an `Error` instance, `Err(error)` returns the failure
variant holding exactly that error. -/
theorem err_construction_spec :
    ∀ e : JSValue,
      (isErrorInstance e = false →
        Err e = .thrown (newTypeError errTypeErrorMessage)) ∧
      (isErrorInstance e = true → Err e = .ret ⟨.vundefined, e⟩) := by
  intro e
  constructor <;> intro h <;> simp [Err, h]

/-- Witness for C5 at concrete inputs. -/
theorem err_construction_witness :
    (Err (.vstr "not an error") = .thrown (newTypeError errTypeErrorMessage)) ∧
    (Err (newError "bad") = .ret ⟨.vundefined, newError "bad"⟩) :=
  ⟨(err_construction_spec (.vstr "not an error")).1 rfl,
   (err_construction_spec (newError "bad")).2 rfl⟩

/-- C7: `wrap` yields `Ok(returnValue)` on normal return and
`Err(toError(thrown))` on throw, and itself never throws; `wrapAsync`
(modelled by the settled outcome of its promise) resolves to `Ok(value)` on
resolution and `Err(toError(reason))` on rejection — including synchronous
throws — and its promise never rejects. -/
theorem wrap_spec :
    (∀ (cb : Unit → JsRes JSValue) (v : JSValue),
      cb () = .ret v → wrap cb = .ret (Ok v)) ∧
    (∀ (cb : Unit → JsRes JSValue) (t : JSValue),
      cb () = .thrown t → wrap cb = .ret ⟨.vundefined, toError t⟩) ∧
    (∀ cb : Unit → JsRes JSValue, ∃ r : ResultObj, wrap cb = .ret r) ∧
    (∀ (cb : Unit → JsRes JSValue) (v : JSValue),
      cb () = .ret v → wrapAsync cb = .ret (Ok v)) ∧
    (∀ (cb : Unit → JsRes JSValue) (t : JSValue),
      cb () = .thrown t → wrapAsync cb = .ret ⟨.vundefined, toError t⟩) ∧
    (∀ cb : Unit → JsRes JSValue, ∃ r : ResultObj, wrapAsync cb = .ret r) := by
  have hthrow : ∀ t : JSValue, Err (toError t) = .ret ⟨.vundefined, toError t⟩ :=
    fun t => Err_of_isErrorInstance (isErrorInstance_toError t)
  refine ⟨fun cb v h => by simp [wrap, h],
          fun cb t h => by simp [wrap, h, hthrow],
          ?_,
          fun cb v h => by simp [wrapAsync, h],
          fun cb t h => by simp [wrapAsync, h, hthrow],
          ?_⟩
  · intro cb
    cases hcb : cb () with
    | ret v => exact ⟨Ok v, by simp [wrap, hcb]⟩
    | thrown t => exact ⟨⟨.vundefined, toError t⟩, by simp [wrap, hcb, hthrow]⟩
  · intro cb
    cases hcb : cb () with
    | ret v => exact ⟨Ok v, by simp [wrapAsync, hcb]⟩
    | thrown t => exact ⟨⟨.vundefined, toError t⟩, by simp [wrapAsync, hcb, hthrow]⟩

/-- Witness for C7 at concrete callbacks. -/
theorem wrap_spec_witness :
    (wrap (fun _ => .ret (.vnum 7)) = .ret (Ok (.vnum 7))) ∧
    (wrap (fun _ => .thrown (.vstr "kaput")) =
      .ret ⟨.vundefined, toError (.vstr "kaput")⟩) ∧
    (wrapAsync (fun _ => .ret (.vnum 8)) = .ret (Ok (.vnum 8))) ∧
    (wrapAsync (fun _ => .thrown (.vstr "kaput")) =
      .ret ⟨.vundefined, toError (.vstr "kaput")⟩) :=
  ⟨wrap_spec.1 _ (.vnum 7) rfl,
   wrap_spec.2.1 _ (.vstr "kaput") rfl,
   wrap_spec.2.2.2.1 _ (.vnum 8) rfl,
   wrap_spec.2.2.2.2.1 _ (.vstr "kaput") rfl⟩

/-! Association-list lemmas for the `Object.assign` promotion argument. -/

theorem getField_setField_self (l : List (String × JSValue)) (k : String) (v : JSValue) :
    getField (setField l k v) k = some v := by
  induction l with
  | nil => simp [setField, getField]
  | cons p rest ih =>
    obtain ⟨k', v'⟩ := p
    by_cases h : k' = k <;> simp [setField, getField, h, ih]

theorem getField_setField_other {k k2 : String} (h : k2 ≠ k)
    (l : List (String × JSValue)) (v : JSValue) :
    getField (setField l k v) k2 = getField l k2 := by
  induction l with
  | nil => simp [setField, getField, Ne.symm h]
  | cons p rest ih =>
    obtain ⟨k', v'⟩ := p
    by_cases hk : k' = k
    · subst hk
      simp [setField, getField, Ne.symm h]
    · simp [setField, getField, hk, ih]

theorem objAssign_cons (base : List (String × JSValue)) (k : String) (v : JSValue)
    (rest : List (String × JSValue)) :
    objAssign base ((k, v) :: rest) = objAssign (setField base k v) rest := rfl

theorem getField_objAssign_not_mem {k : String} {fs : List (String × JSValue)}
    (h : k ∉ fs.map Prod.fst) (base : List (String × JSValue)) :
    getField (objAssign base fs) k = getField base k := by
  induction fs generalizing base with
  | nil => rfl
  | cons p rest ih =>
    obtain ⟨k1, v1⟩ := p
    simp only [List.map_cons, List.mem_cons] at h
    push_neg at h
    rw [objAssign_cons, ih h.2, getField_setField_other h.1]

theorem getField_objAssign_mem {k : String} {v : JSValue} {fs : List (String × JSValue)}
    (hnd : (fs.map Prod.fst).Nodup) (hget : getField fs k = some v)
    (base : List (String × JSValue)) :
    getField (objAssign base fs) k = some v := by
  induction fs generalizing base with
  | nil => simp [getField] at hget
  | cons p rest ih =>
    obtain ⟨k1, v1⟩ := p
    simp only [List.map_cons, List.nodup_cons] at hnd
    by_cases h : k1 = k
    · subst h
      simp only [getField, if_true, eq_self_iff_true, Option.some.injEq] at hget
      rw [objAssign_cons, getField_objAssign_not_mem hnd.1, getField_setField_self, hget]
    · have hget2 : getField rest k = some v := by
        simpa [getField, h] using hget
      rw [objAssign_cons]
      exact ih hnd.2 hget2 (setField base k1 v1)

theorem getField_eq_none {fs : List (String × JSValue)} {k : String} :
    getField fs k = none ↔ k ∉ fs.map Prod.fst := by
  induction fs with
  | nil => simp [getField]
  | cons p rest ih =>
    obtain ⟨k1, v1⟩ := p
    simp only [getField, List.map_cons, List.mem_cons]
    by_cases h : k1 = k
    · subst h
      simp
    · simp only [if_neg h, ih]
      constructor
      · intro hn hc
        rcases hc with hc | hc
        · exact h hc.symm
        · exact hn hc
      · intro hn hm
        exact hn (Or.inr hm)

/-- When `props` has no `message` key, `createCustomError` keeps the default
constructor message. -/
theorem createCustomError_vobj_noMessage {fs : List (String × JSValue)}
    (h : getField fs "message" = none) :
    createCustomError (.vobj fs) =
      .verr (objAssign [("message", .vstr "Unknown Error")] fs) := by
  simp [createCustomError, optMessage, h, isTruthy, jsToString]

/-- C1 counterexample: on a value that is neither Error-like, nor a string,
nor a key-value object, `toError` returns `new Error("Unknown error")`
without attaching the input as `cause`, contradicting the claim's final
case. -/
theorem toError_fallback_cause_cex :
    (toError (.vbool true) = newError "Unknown error") ∧
    (errGet (toError (.vbool true)) "cause" = none) ∧
    ¬ errGet (toError (.vbool true)) "cause" = some (.vbool true) := by
  refine ⟨rfl, rfl, fun h => ?_⟩
  have h2 : (none : Option JSValue) = some (.vbool true) := h
  simp at h2

/-- C1 as amended: `toError` is total and performs the case analysis of the
source: an `Error` instance is returned unchanged; a string becomes a new
error whose `message` is that string; a non-null non-array plain object is
promoted onto a newly built custom error (every field of the input, looked up
under unique keys, appears on the result, and a missing `message` defaults to
"Unknown Error"); any other value becomes a new error with the fixed message
"Unknown error" and no `cause` field. -/
theorem toError_spec :
    (∀ fs : List (String × JSValue), toError (.verr fs) = .verr fs) ∧
    (∀ s : String,
      toError (.vstr s) = newError s ∧
      errGet (toError (.vstr s)) "message" = some (.vstr s)) ∧
    (∀ fs : List (String × JSValue),
      toError (.vobj fs) = createCustomError (.vobj fs) ∧
      isErrorInstance (toError (.vobj fs)) = true ∧
      (∀ (k : String) (v : JSValue), (fs.map Prod.fst).Nodup →
        getField fs k = some v → errGet (toError (.vobj fs)) k = some v) ∧
      (getField fs "message" = none →
        errGet (toError (.vobj fs)) "message" = some (.vstr "Unknown Error"))) ∧
    (∀ e : JSValue,
      isErrorInstance e = false → isString e = false → isKeyValue e = false →
        toError e = newError "Unknown error" ∧ errGet (toError e) "cause" = none) := by
  refine ⟨fun fs => rfl, fun s => ⟨rfl, rfl⟩, ?_, ?_⟩
  · intro fs
    have hto : toError (.vobj fs) = createCustomError (.vobj fs) := rfl
    refine ⟨rfl, isErrorInstance_toError _, ?_, ?_⟩
    · intro k v hnd hget
      obtain ⟨m, hm⟩ : ∃ m : String,
          createCustomError (.vobj fs) =
            .verr (objAssign [("message", .vstr m)] fs) := ⟨_, rfl⟩
      rw [hto, hm]
      simpa [errGet] using getField_objAssign_mem hnd hget [("message", .vstr m)]
    · intro hnone
      rw [hto, createCustomError_vobj_noMessage hnone]
      have hmem : "message" ∉ fs.map Prod.fst := getField_eq_none.mp hnone
      simp [errGet, getField_objAssign_not_mem hmem, getField]
  · intro e h1 h2 h3
    constructor
    · simp [toError, h1, h2, h3]
    · simp [toError, h1, h2, h3, errGet, newError, getField]

/-- Witness for C1 at concrete inputs of each shape. -/
theorem toError_spec_witness :
    (toError (newError "already") = newError "already") ∧
    (toError (.vstr "msg") = newError "msg") ∧
    (errGet (toError (.vobj [("code", .vnum 404)])) "code" = some (.vnum 404)) ∧
    (errGet (toError (.vobj [("code", .vnum 404)])) "message" =
      some (.vstr "Unknown Error")) ∧
    (toError (.vnum 3) = newError "Unknown error") := by
  refine ⟨toError_spec.1 [("message", .vstr "already")], (toError_spec.2.1 "msg").1,
    ?_, ?_, ?_⟩
  · exact (toError_spec.2.2.1 [("code", .vnum 404)]).2.2.1 "code" (.vnum 404)
      (by simp) rfl
  · exact (toError_spec.2.2.1 [("code", .vnum 404)]).2.2.2 rfl
  · exact ((toError_spec.2.2.2 (.vnum 3)) rfl rfl rfl).1

/-- Exactly one of the `ok`/`error` fields holds a defined value — the
claimed form of the Result invariant. -/
def exactlyOnePresent (r : ResultObj) : Prop :=
  (isUndefined r.ok = false ∧ isUndefined r.error = true) ∨
  (isUndefined r.ok = true ∧ isUndefined r.error = false)

/-- The invariant the code actually maintains: `error` is either the JS
`undefined` (success variant — `ok` may itself be undefined) or an `Error`
instance with `ok` undefined (failure variant). -/
def WellFormed (r : ResultObj) : Prop :=
  isUndefined r.error = true ∨ (isErrorInstance r.error = true ∧ isUndefined r.ok = true)

/-- `createCustomError` always returns an `Error` instance. -/
theorem isErrorInstance_createCustomError (p : JSValue) :
    isErrorInstance (createCustomError p) = true := by
  cases p <;> simp [createCustomError, isErrorInstance]

/-- C9 counterexample: `Ok(undefined)` — e.g. the result of wrapping a
function that returns nothing — is a legal success Result in which neither
`ok` nor `error` holds a defined value, so "exactly one of `ok`/`error` is
present" fails, even though `isOk()`/`isError()` still classify it as a
success. -/
theorem exactlyOnePresent_cex :
    ¬ exactlyOnePresent (Ok .vundefined) ∧
    (Ok .vundefined).isOk = true ∧ (Ok .vundefined).isError = false := by
  refine ⟨fun h => ?_, rfl, rfl⟩
  simp [exactlyOnePresent, Ok, isUndefined] at h

/-- C9 as amended: every Result built by a constructor satisfies the variant
invariant `WellFormed` (`error` is undefined, or is an `Error` instance with
`ok` undefined); `map` preserves it unconditionally and `pipe` preserves it
whenever the callback returns well-formed Results; `isError()` is always the
negation of `isOk()`; and since Results are modelled as immutable values, no
combinator changes the receiver, so repeated `isOk`/`isError`/`unwrap` calls
on the same instance agree by construction. -/
theorem result_invariant_spec :
    (∀ x : JSValue, WellFormed (Ok x)) ∧
    (∀ (e : JSValue) (r : ResultObj), Err e = .ret r → WellFormed r) ∧
    (∀ s : String, WellFormed (ErrFromText s)) ∧
    (∀ p : JSValue, WellFormed (ErrFromObject p)) ∧
    (∀ (r : ResultObj) (fn : JSValue → JsRes JSValue) (r2 : ResultObj),
      r.map fn = .ret r2 → WellFormed r2) ∧
    (∀ (r : ResultObj) (fn : JSValue → JsRes ResultObj) (r2 : ResultObj),
      (∀ (y : JSValue) (s : ResultObj), fn y = .ret s → WellFormed s) →
      r.pipe fn = .ret r2 → WellFormed r2) ∧
    (∀ r : ResultObj, r.isError = !r.isOk) := by
  refine ⟨fun x => Or.inl rfl, ?_, ?_, ?_, ?_, ?_, fun r => rfl⟩
  · intro e r h
    obtain ⟨he, rfl⟩ := Err_ret h
    exact Or.inr ⟨he, rfl⟩
  · intro s
    exact Or.inr ⟨rfl, rfl⟩
  · intro p
    exact Or.inr ⟨isErrorInstance_createCustomError p, rfl⟩
  · intro r fn r2 h
    by_cases hok : r.isOk
    · rw [ResultObj.map, if_pos hok] at h
      cases hfn : fn r.ok with
      | ret v =>
        rw [hfn] at h
        cases h
        exact Or.inl rfl
      | thrown t =>
        rw [hfn] at h
        obtain ⟨he, rfl⟩ := Err_ret h
        exact Or.inr ⟨he, rfl⟩
    · rw [ResultObj.map, if_neg hok] at h
      obtain ⟨he, rfl⟩ := Err_ret h
      exact Or.inr ⟨he, rfl⟩
  · intro r fn r2 hfn h
    by_cases hok : r.isOk
    · rw [ResultObj.pipe, if_pos hok] at h
      cases hc : fn r.ok with
      | ret s =>
        rw [hc] at h
        cases h
        exact hfn _ _ hc
      | thrown t =>
        rw [hc] at h
        obtain ⟨he, rfl⟩ := Err_ret h
        exact Or.inr ⟨he, rfl⟩
    · rw [ResultObj.pipe, if_neg hok] at h
      obtain ⟨he, rfl⟩ := Err_ret h
      exact Or.inr ⟨he, rfl⟩

/-- Witness for C9 at concrete inputs. -/
theorem result_invariant_witness :
    WellFormed (Ok (.vnum 1)) ∧
    WellFormed ⟨.vundefined, newError "e"⟩ ∧
    WellFormed (ErrFromText "t") := by
  refine ⟨result_invariant_spec.1 (.vnum 1), ?_,
    result_invariant_spec.2.2.1 "t"⟩
  exact result_invariant_spec.2.1 (newError "e") ⟨.vundefined, newError "e"⟩ rfl

end LibResult
